import Mathlib

/-!
Verification of the card-ingestion pipeline in `populate db/populate-db.js`
(repository TeamRocket).

The script fetches a paginated card catalog (`fetchAllScrydexCards`),
normalizes each raw card and writes it to four tables
(`insertCardToSupabase`), and drives the per-card loop with run-level
counters (`populateDatabase`).

Modelling conventions for the shallow embedding:
* A JavaScript value that may be `null`/`undefined` is an `Option`.
* JavaScript truthiness is modelled per type: a string is falsy exactly
  when it is `""`; a number is falsy exactly when it is `0` (the model has
  no `NaN`); an array is always truthy; `null`/`undefined` (`none`) is
  falsy.  The helpers `jsOrStr`, `jsOrNullStr`, `jsOrNullInt`, `jsOrNullQ`
  embed the `x || d` defaulting idiom of the source.
* Monetary price values are rationals (`ℚ`); the claims only compare them
  with `null`/`0`, so no floating-point behaviour is involved.
* The Supabase client is an oracle `DBSpec` saying, for each attempted
  write, whether the store reports an error.  `insertCardToSupabase`
  returns the thrown-or-returned outcome together with the trace of
  attempted writes and of the semantically relevant log lines
  (set-upsert error log, per-card success/error log).  Progress/debug
  `console.log` lines, the HTTP layer, the `pageSize=250` URL parameter,
  the response-envelope unwrapping (`data.data || data.cards || data`)
  and the `setTimeout` pacing pauses have no bearing on the claims and
  are not modelled; the page oracle of the fetcher directly yields each
  page's record list.
* `fetchAllScrydexCards` is a loop without a structural bound, so the
  embedding takes explicit fuel and returns `none` on fuel exhaustion;
  termination claims quantify over fuel.
-/

/-- JS `x || d` for an optional string: `null`/`undefined` and `""` are falsy. -/
def jsOrStr (o : Option String) (d : String) : String :=
  match o with
  | some s => if s = "" then d else s
  | none => d

/-- JS `x || null` for an optional string. -/
def jsOrNullStr (o : Option String) : Option String :=
  match o with
  | some s => if s = "" then none else some s
  | none => none

/-- JS `x || null` for an optional integer: `0` is falsy. -/
def jsOrNullInt (o : Option Int) : Option Int :=
  match o with
  | some v => if v = 0 then none else some v
  | none => none

/-- JS `x || null` for an optional rational price value: `0` is falsy. -/
def jsOrNullQ (o : Option ℚ) : Option ℚ :=
  match o with
  | some v => if v = 0 then none else some v
  | none => none

/-- JS truthiness of an optional rational: present and nonzero. -/
def jsTruthyQ (o : Option ℚ) : Bool :=
  match o with
  | some v => v != 0
  | none => false

/-- JS `msg.includes(sub)`. -/
def jsIncludes (msg sub : String) : Bool :=
  (msg.splitOn sub).length > 1

/-- One point-in-time price snapshot of a variant (`variant.prices[i]`). -/
structure PriceSnapshot where
  low : Option ℚ
  mid : Option ℚ
  high : Option ℚ
  market : Option ℚ
  updated_at : Option String
deriving Repr, DecidableEq

/-- An alternate printing of a card; `prices` may be absent. -/
structure Variant where
  prices : Option (List PriceSnapshot)
deriving Repr, DecidableEq

/-- A weakness or resistance entry of the raw card. -/
structure Weakness where
  type : String
  value : String
deriving Repr, DecidableEq

/-- A raw attack entry (`card.attacks[i]`). -/
structure Attack where
  name : String
  text : Option String
  cost : Option (List String)
  damage : Option String
deriving Repr, DecidableEq

/-- A raw ability entry (`card.abilities[i]`). -/
structure Ability where
  name : String
  text : Option String
  type : Option String
deriving Repr, DecidableEq

/-- The embedded expansion object (`card.expansion`). -/
structure Expansion where
  id : String
  name : String
  series : Option String
  printed_total : Option Int
  total : Option Int
deriving Repr, DecidableEq

/-- One externally sourced catalog record, as read by the script. -/
structure RawCard where
  id : String
  name : String
  number : Option String
  hp : Option Int
  supertype : Option String
  subtypes : Option (List String)
  types : Option (List String)
  weaknesses : Option (List Weakness)
  resistances : Option (List Weakness)
  retreat_cost : Option (List String)
  retreatCost : Option (List String)
  expansion : Option Expansion
  variants : Option (List Variant)
  attacks : Option (List Attack)
  abilities : Option (List Ability)
deriving Repr, DecidableEq

/-- Row shape of the `sets` table upsert. -/
structure SetRow where
  id : String
  name : String
  series : String
  printed_total : Option Int
  total : Option Int
deriving Repr, DecidableEq

/-- Row shape of the `cardinfo` table insert. -/
structure CardRow where
  id : String
  card_name : String
  number : Option String
  hp : Option Int
  supertype : Option String
  subtypes : List String
  pokemon_types : List String
  weakness : List String
  resistance : List String
  retreat_cost : List String
  set_id : Option String
deriving Repr, DecidableEq

/-- Row shape of the `tcgplayer` pricing table insert. -/
structure PriceRow where
  card_id : String
  url : Option String
  price_low : Option ℚ
  price_mid : Option ℚ
  price_high : Option ℚ
  price_market : Option ℚ
  last_updated : String
deriving Repr, DecidableEq

/-- Row shape of the shared `attacks` table insert (attacks and abilities). -/
structure AttackRow where
  card_id : String
  name : String
  description : String
  type : List String
  cost : List String
  damage : String
deriving Repr, DecidableEq

/-- The set row built at step 1 of `insertCardToSupabase`. -/
def mkSetRow (e : Expansion) : SetRow :=
  { id := e.id
    name := e.name
    series := jsOrStr e.series ""
    printed_total := jsOrNullInt e.printed_total
    total := jsOrNullInt e.total }

/-- Steps 2–3 of `insertCardToSupabase`: `card.weaknesses.map(w => `${w.type} ${w.value}`)`
guarded by presence and non-emptiness; also used for resistances. -/
def weaknessStrings (ws : Option (List Weakness)) : List String :=
  match ws with
  | some l => if l.length > 0 then l.map (fun w => w.type ++ " " ++ w.value) else []
  | none => []

/-- The card row built at step 4 of `insertCardToSupabase`. -/
def mkCardRow (card : RawCard) : CardRow :=
  { id := card.id
    card_name := card.name
    number := jsOrNullStr card.number
    hp := jsOrNullInt card.hp
    supertype := jsOrNullStr card.supertype
    subtypes := card.subtypes.getD []
    pokemon_types := card.types.getD []
    weakness := weaknessStrings card.weaknesses
    resistance := weaknessStrings card.resistances
    retreat_cost :=
      match card.retreat_cost with
      | some l => l
      | none => card.retreatCost.getD []
    set_id := jsOrNullStr (card.expansion.map (fun e => e.id)) }

/-- The pricing row built from a chosen snapshot at step 5. -/
def mkPriceRow (cardId now : String) (s : PriceSnapshot) : PriceRow :=
  { card_id := cardId
    url := none
    price_low := jsOrNullQ s.low
    price_mid := jsOrNullQ s.mid
    price_high := jsOrNullQ s.high
    price_market := jsOrNullQ s.market
    last_updated := jsOrStr s.updated_at now }

/-- The step-5 guard `latestPrice.low || latestPrice.mid || latestPrice.high || latestPrice.market`. -/
def truthyAnyPrice (s : PriceSnapshot) : Bool :=
  jsTruthyQ s.low || jsTruthyQ s.mid || jsTruthyQ s.high || jsTruthyQ s.market

/-- The step-5 variant loop: for each variant in source order, if its price
list is present and non-empty take `prices[0]`; when that snapshot passes the
truthiness guard build the pricing row and `break`, otherwise continue. -/
def firstVariantPriceRow (cardId now : String) : List Variant → Option PriceRow
  | [] => none
  | v :: rest =>
    match v.prices with
    | some (latest :: _) =>
      if truthyAnyPrice latest then some (mkPriceRow cardId now latest)
      else firstVariantPriceRow cardId now rest
    | _ => firstVariantPriceRow cardId now rest

/-- One attack row of step 6. -/
def mkAttackRow (cardId : String) (a : Attack) : AttackRow :=
  { card_id := cardId
    name := a.name
    description := jsOrStr a.text ""
    type := ["attack"]
    cost := a.cost.getD []
    damage := jsOrStr a.damage "" }

/-- One ability row of step 7. -/
def mkAbilityRow (cardId : String) (a : Ability) : AttackRow :=
  { card_id := cardId
    name := a.name
    description := jsOrStr a.text ""
    type := ["ability", jsOrStr a.type "Pokémon Power"]
    cost := []
    damage := "" }

/-- One attempted write against the Supabase store, in program order. -/
inductive WriteOp where
  | setUpsert (row : SetRow)
  | cardInsert (row : CardRow)
  | priceInsert (row : PriceRow)
  | attacksInsert (rows : List AttackRow)
deriving Repr, DecidableEq

/-- The semantically relevant log lines: the step-1 set-error `console.error`,
and the per-card success/error lines of the `populateDatabase` loop.  No
constructor exists for price or attack/ability insert failures because the
source discards those results without inspecting them. -/
inductive LogEvent where
  | setInsertError (msg : String)
  | cardSuccess (id name : String)
  | cardError (id name msg : String)
deriving Repr, DecidableEq

/-- Oracle for the store: for each attempted write, `some msg` means the
client reports that error object, `none` means success.  The Supabase client
returns errors as values and never throws, so an error only has an effect
where the source inspects it. -/
structure DBSpec where
  setUpsertError : SetRow → Option String
  cardInsertError : CardRow → Option String
  priceInsertError : PriceRow → Option String
  attacksInsertError : List AttackRow → Option String

/-- The returned-or-thrown outcome of `insertCardToSupabase`: `ok` carries
the inserted card row, `error` the thrown message. -/
inductive PersistOutcome where
  | ok (row : CardRow)
  | error (msg : String)
deriving Repr, DecidableEq

/-- Whether a persist outcome is a success. -/
def PersistOutcome.isOk : PersistOutcome → Bool
  | PersistOutcome.ok _ => true
  | PersistOutcome.error _ => false

/-- Outcome of `insertCardToSupabase`: the returned/thrown result, the trace
of writes attempted before returning, and the log lines emitted. -/
structure InsertResult where
  result : PersistOutcome
  writes : List WriteOp
  logs : List LogEvent
deriving Repr, DecidableEq

/-- `insertCardToSupabase(card)`: step 1 upserts the set when `card.expansion`
is present (an error is logged unless its message includes `"duplicate"`, and
never aborts); step 4 inserts the card row and throws
`Card insert failed: ...` on error, skipping all later steps; step 5 inserts
at most one pricing row chosen by `firstVariantPriceRow`; steps 6–7 insert the
attack and ability batches when non-empty.  The results of steps 5–7 are
discarded by the source, so the oracle's answers for them influence nothing. -/
def insertCardToSupabase (db : DBSpec) (now : String) (card : RawCard) : InsertResult :=
  let setWrites : List WriteOp :=
    match card.expansion with
    | some e => [WriteOp.setUpsert (mkSetRow e)]
    | none => []
  let setLogs : List LogEvent :=
    match card.expansion with
    | some e =>
      match db.setUpsertError (mkSetRow e) with
      | some msg =>
        if jsIncludes msg "duplicate" then [] else [LogEvent.setInsertError msg]
      | none => []
    | none => []
  let cardRow := mkCardRow card
  let ws := setWrites ++ [WriteOp.cardInsert cardRow]
  match db.cardInsertError cardRow with
  | some msg =>
    { result := PersistOutcome.error ("Card insert failed: " ++ msg)
      writes := ws
      logs := setLogs }
  | none =>
    let priceWrites : List WriteOp :=
      match firstVariantPriceRow card.id now (card.variants.getD []) with
      | some row => [WriteOp.priceInsert row]
      | none => []
    let attackWrites : List WriteOp :=
      let atks := card.attacks.getD []
      if atks.length > 0 then [WriteOp.attacksInsert (atks.map (mkAttackRow card.id))] else []
    let abilityWrites : List WriteOp :=
      let abs := card.abilities.getD []
      if abs.length > 0 then [WriteOp.attacksInsert (abs.map (mkAbilityRow card.id))] else []
    { result := PersistOutcome.ok cardRow
      writes := ws ++ priceWrites ++ attackWrites ++ abilityWrites
      logs := setLogs }

/-- The loop-body guard `card.variants?.some(v => v.prices?.length > 0)`. -/
def hasPricedVariant (card : RawCard) : Bool :=
  (card.variants.getD []).any (fun v => (v.prices.getD []).length > 0)

/-- JS `Set.add`: insertion-ordered, duplicates ignored. -/
def addUnique (l : List String) (x : String) : List String :=
  if x ∈ l then l else l ++ [x]

/-- Accumulated state of the `populateDatabase` loop. -/
structure RunStats where
  successCount : Nat
  errorCount : Nat
  setsFound : List String
  pricesFound : Nat
  logs : List LogEvent
  writes : List WriteOp
deriving Repr, DecidableEq

/-- Counters before the first iteration. -/
def initStats : RunStats :=
  { successCount := 0, errorCount := 0, setsFound := [], pricesFound := 0
    logs := [], writes := [] }

/-- One iteration of the `populateDatabase` loop: try the insert; on success
increment `successCount`, record the set id when `card.expansion?.id` is
truthy, increment `pricesFound` when some variant has a non-empty price list,
and log the success line; on a thrown error increment `errorCount` and log the
error line.  Either way the loop continues. -/
def stepCard (db : DBSpec) (now : String) (s : RunStats) (card : RawCard) : RunStats :=
  let r := insertCardToSupabase db now card
  match r.result with
  | PersistOutcome.ok _ =>
    { successCount := s.successCount + 1
      errorCount := s.errorCount
      setsFound :=
        match card.expansion with
        | some e => if e.id = "" then s.setsFound else addUnique s.setsFound e.id
        | none => s.setsFound
      pricesFound := if hasPricedVariant card then s.pricesFound + 1 else s.pricesFound
      logs := s.logs ++ r.logs ++ [LogEvent.cardSuccess card.id card.name]
      writes := s.writes ++ r.writes }
  | PersistOutcome.error msg =>
    { successCount := s.successCount
      errorCount := s.errorCount + 1
      setsFound := s.setsFound
      pricesFound := s.pricesFound
      logs := s.logs ++ r.logs ++ [LogEvent.cardError card.id card.name msg]
      writes := s.writes ++ r.writes }

/-- The `for` loop of `populateDatabase` over the fetched card sequence. -/
def processCards (db : DBSpec) (now : String) : List RawCard → RunStats → RunStats
  | [], s => s
  | card :: rest, s => processCards db now rest (stepCard db now s card)

/-- The pagination loop of `fetchAllScrydexCards`, with the remote catalog as
a page oracle (`pages n` is the record list of page `n`, pages numbered from
1) and explicit fuel.  A request is counted per loop pass; an empty page
stops without concatenating; a short page (< 250) is concatenated and stops;
otherwise the loop continues with the next page.  Returns the accumulated
cards with the number of requests, or `none` when fuel runs out. -/
def fetchPages (pages : Nat → List RawCard) :
    Nat → Nat → List RawCard → Nat → Option (List RawCard × Nat)
  | 0, _, _, _ => none
  | fuel + 1, page, acc, reqs =>
    let cards := pages page
    if cards.length = 0 then some (acc, reqs + 1)
    else if cards.length < 250 then some (acc ++ cards, reqs + 1)
    else fetchPages pages fuel (page + 1) (acc ++ cards) (reqs + 1)

/-- `fetchAllScrydexCards()`: start at page 1 with no cards accumulated. -/
def fetchAllScrydexCards (pages : Nat → List RawCard) (fuel : Nat) :
    Option (List RawCard × Nat) :=
  fetchPages pages fuel 1 [] 0

/-- A write of step 5 or of steps 6–7 (a child write of the card row). -/
def isChildWrite : WriteOp → Bool
  | WriteOp.priceInsert _ => true
  | WriteOp.attacksInsert _ => true
  | _ => false

/-- Whether a variant's first snapshot passes the step-5 truthiness guard. -/
def variantFirstSnapQualifies (v : Variant) : Bool :=
  match v.prices with
  | some (s :: _) => truthyAnyPrice s
  | _ => false

/-- The spec's wording of the price-selection guard, for comparison with the
source's truthiness guard: the first snapshot has at least one NON-NULL value
among low/mid/high/market. -/
def specNonNullQualifies (s : PriceSnapshot) : Bool :=
  s.low.isSome || s.mid.isSome || s.high.isSome || s.market.isSome

/-- A store oracle on which every write succeeds. -/
def dbAllOk : DBSpec :=
  { setUpsertError := fun _ => none
    cardInsertError := fun _ => none
    priceInsertError := fun _ => none
    attacksInsertError := fun _ => none }

/-- A raw card with every optional field absent (shape of a minimal record). -/
def dummyCard : RawCard :=
  { id := "d", name := "d", number := none, hp := none, supertype := none
    subtypes := none, types := none, weaknesses := none, resistances := none
    retreat_cost := none, retreatCost := none, expansion := none
    variants := none, attacks := none, abilities := none }

/-- A write of steps 6–7 (attack/ability batch insert). -/
def isAttacksWrite : WriteOp → Bool
  | WriteOp.attacksInsert _ => true
  | _ => false

/-- A write of step 5 (pricing insert). -/
def isPriceWrite : WriteOp → Bool
  | WriteOp.priceInsert _ => true
  | _ => false

/-- A store oracle on which only the card-row insert fails. -/
def dbCardFails : DBSpec :=
  { dbAllOk with
    cardInsertError := fun _ => some "duplicate key value violates unique constraint" }

/-- A store oracle on which only the pricing insert fails. -/
def dbPriceFails : DBSpec :=
  { dbAllOk with priceInsertError := fun _ => some "price insert failed" }

/-- A store oracle failing on every child write and on the card insert. -/
def dbChildAndCardFail : DBSpec :=
  { setUpsertError := fun _ => none
    cardInsertError := fun _ => some "dup"
    priceInsertError := fun _ => some "boom"
    attacksInsertError := fun _ => some "boom" }

/-- A store oracle failing on the card insert with all child writes fine. -/
def dbOnlyCardFails : DBSpec :=
  { dbAllOk with cardInsertError := fun _ => some "dup" }

/-- An attack entry whose damage is the empty string (present but falsy). -/
def wFalsyAttack : Attack :=
  { name := "Tackle", text := none, cost := none, damage := some "" }

/-- A raw card whose optional scalars are present but falsy. -/
def wFalsyCard : RawCard :=
  { dummyCard with
    id := "w9"
    name := "Zero"
    number := some ""
    hp := some 0
    supertype := some ""
    attacks := some [wFalsyAttack] }

/-- A card with no attacks, no abilities and no variants. -/
def w4Card : RawCard := { dummyCard with id := "w4", name := "Plain" }

/-- A snapshot whose only truthy value is `market = 5`. -/
def snapM5 : PriceSnapshot :=
  { low := none
    mid := none
    high := none
    market := some 5
    updated_at := some "2024-01-01" }

/-- A card with one variant carrying the `market = 5` snapshot. -/
def cex7Card : RawCard :=
  { dummyCard with
    id := "cex7"
    name := "Priced"
    variants := some [⟨some [snapM5]⟩] }

/-- A snapshot with all four monetary fields null. -/
def snapAllNull : PriceSnapshot :=
  { low := none
    mid := none
    high := none
    market := none
    updated_at := none }

/-- A card whose single variant has one all-null snapshot. -/
def cex6Card : RawCard :=
  { dummyCard with
    id := "cex6"
    name := "NullPrices"
    variants := some [⟨some [snapAllNull]⟩] }

/-- A snapshot whose `low` is present but zero (non-null yet falsy). -/
def cexSnapZero : PriceSnapshot :=
  { low := some 0
    mid := none
    high := none
    market := none
    updated_at := none }

/-- A card whose single variant's first snapshot is `cexSnapZero`. -/
def cex1Card : RawCard :=
  { dummyCard with
    id := "cex1"
    name := "ZeroPrice"
    variants := some [⟨some [cexSnapZero]⟩] }

/-- A variant whose only snapshot has every monetary field null. -/
def vNullSnap : Variant := ⟨some [snapAllNull]⟩

/-- A variant whose only snapshot has `market = 5`. -/
def vMarket5 : Variant := ⟨some [snapM5]⟩

/-- The catalog of the C2 scenario: two full pages, then one page of 100. -/
def pagesScenario : Nat → List RawCard := fun n =>
  if n = 1 then List.replicate 250 dummyCard
  else if n = 2 then List.replicate 250 dummyCard
  else if n = 3 then List.replicate 100 dummyCard
  else []

/-- A source answering a full page of 250 records at every index. -/
def pagesAllFull : Nat → List RawCard := fun _ => List.replicate 250 dummyCard

/-- The thrown-or-returned outcome of the persister depends only on the
card-row insert answer of the store. -/
theorem insert_result_eq (db : DBSpec) (now : String) (card : RawCard) :
    (insertCardToSupabase db now card).result =
      match db.cardInsertError (mkCardRow card) with
      | some msg => PersistOutcome.error ("Card insert failed: " ++ msg)
      | none => PersistOutcome.ok (mkCardRow card) := by
  cases h : db.cardInsertError (mkCardRow card) <;>
    simp [insertCardToSupabase, h]

/-- Counter bookkeeping of the whole loop, generalized over the starting
accumulator: each iteration adds exactly one to one of the two counters. -/
theorem processCards_counts (db : DBSpec) (now : String) :
    ∀ (cards : List RawCard) (s : RunStats),
      (processCards db now cards s).successCount
          + (processCards db now cards s).errorCount
        = s.successCount + s.errorCount + cards.length := by
  intro cards
  induction cards with
  | nil => intro s; simp [processCards]
  | cons c rest ih =>
    intro s
    simp only [processCards]
    rw [ih]
    cases h : (insertCardToSupabase db now c).result <;>
      simp [stepCard, h, List.length_cons] <;> omega

/-- Unfolding of the weakness/resistance mapping: the guarded map of the
source equals a plain map over the entry list (absent maps to empty). -/
theorem weaknessStrings_eq_map (ws : Option (List Weakness)) :
    weaknessStrings ws = (ws.getD []).map (fun w => w.type ++ " " ++ w.value) := by
  cases ws with
  | none => rfl
  | some l =>
    cases l with
    | nil => rfl
    | cons a t => simp [weaknessStrings]

/-- C5: for every completed run over any fetched card sequence, with any
store behaviour, `successCount + errorCount` equals the number of cards
processed. -/
theorem run_counter_invariant (db : DBSpec) (now : String) (cards : List RawCard) :
    (processCards db now cards initStats).successCount
        + (processCards db now cards initStats).errorCount = cards.length := by
  have h := processCards_counts db now cards initStats
  simpa [initStats] using h

/-- C8: the normalized weakness array is exactly the entry-wise map
`type value` of the raw weaknesses, so it preserves length and order; the
same holds for resistances, and these arrays are what the card row
carries. -/
theorem weakness_normalization (card : RawCard) :
    weaknessStrings card.weaknesses
        = (card.weaknesses.getD []).map (fun w => w.type ++ " " ++ w.value) ∧
    (weaknessStrings card.weaknesses).length = (card.weaknesses.getD []).length ∧
    weaknessStrings card.resistances
        = (card.resistances.getD []).map (fun w => w.type ++ " " ++ w.value) ∧
    (weaknessStrings card.resistances).length = (card.resistances.getD []).length ∧
    (mkCardRow card).weakness = weaknessStrings card.weaknesses ∧
    (mkCardRow card).resistance = weaknessStrings card.resistances := by
  refine ⟨weaknessStrings_eq_map card.weaknesses, ?_,
    weaknessStrings_eq_map card.resistances, ?_, rfl, rfl⟩ <;>
    rw [weaknessStrings_eq_map] <;> simp

/-- C9: the `x || default` idiom of the source replaces present-but-falsy
scalars by the default: `hp = 0` is stored as `null`, and likewise an empty
`number` or `supertype`; an attack damage of `""` maps to the default
`""`. -/
theorem falsy_fields_defaulted (card : RawCard) (a : Attack) (cid : String) :
    (card.hp = some 0 → (mkCardRow card).hp = none) ∧
    (card.number = some "" → (mkCardRow card).number = none) ∧
    (card.supertype = some "" → (mkCardRow card).supertype = none) ∧
    (a.damage = some "" → (mkAttackRow cid a).damage = "") := by
  refine ⟨fun h => ?_, fun h => ?_, fun h => ?_, fun h => ?_⟩ <;>
    simp [mkCardRow, mkAttackRow, jsOrNullInt, jsOrNullStr, jsOrStr, h]

/-- C3: when the store rejects the card-row insert, the persister throws a
per-card error, no child write (pricing or attack/ability) is attempted, the
loop counts the card in `errorCount` and not in `successCount`, and
processing continues with the remaining cards. -/
theorem cardInsertFailure_isolated (db : DBSpec) (now : String) (card : RawCard)
    (msg : String) (s : RunStats) (rest : List RawCard)
    (h : db.cardInsertError (mkCardRow card) = some msg) :
    (insertCardToSupabase db now card).result
        = PersistOutcome.error ("Card insert failed: " ++ msg) ∧
    (insertCardToSupabase db now card).writes.filter isChildWrite = [] ∧
    (stepCard db now s card).errorCount = s.errorCount + 1 ∧
    (stepCard db now s card).successCount = s.successCount ∧
    processCards db now (card :: rest) s
        = processCards db now rest (stepCard db now s card) := by
  have hres : (insertCardToSupabase db now card).result
      = PersistOutcome.error ("Card insert failed: " ++ msg) := by
    rw [insert_result_eq, h]
  refine ⟨hres, ?_, ?_, ?_, rfl⟩
  · simp only [insertCardToSupabase, h]
    cases card.expansion <;> simp [isChildWrite]
  · simp [stepCard, hres]
  · simp [stepCard, hres]

/-- Witness for C3: a store whose card-row insert reports a duplicate key. -/
theorem cardInsertFailure_isolated_witness :
    (insertCardToSupabase dbCardFails "t" dummyCard).result
        = PersistOutcome.error
            ("Card insert failed: " ++ "duplicate key value violates unique constraint") ∧
    (insertCardToSupabase dbCardFails "t" dummyCard).writes.filter isChildWrite = [] ∧
    (stepCard dbCardFails "t" initStats dummyCard).errorCount = initStats.errorCount + 1 ∧
    (stepCard dbCardFails "t" initStats dummyCard).successCount = initStats.successCount ∧
    processCards dbCardFails "t" (dummyCard :: []) initStats
        = processCards dbCardFails "t" [] (stepCard dbCardFails "t" initStats dummyCard) :=
  cardInsertFailure_isolated dbCardFails "t" dummyCard
    "duplicate key value violates unique constraint" initStats [] rfl

/-- C4: the persister's outcome is a success exactly when the card-row
insert succeeded, whatever the store answers for the pricing and
attack/ability writes (the `db` oracle is arbitrary); a successful card adds
one to `successCount`; and a card with no attacks and no abilities produces
zero attack/ability rows. -/
theorem persistSuccess_iff_cardInsert (db : DBSpec) (now : String) (card : RawCard)
    (s : RunStats) :
    ((insertCardToSupabase db now card).result.isOk
        = (db.cardInsertError (mkCardRow card)).isNone) ∧
    (db.cardInsertError (mkCardRow card) = none →
        (stepCard db now s card).successCount = s.successCount + 1) ∧
    (card.attacks.getD [] = [] → card.abilities.getD [] = [] →
        (insertCardToSupabase db now card).writes.filter isAttacksWrite = []) := by
  refine ⟨?_, fun h => ?_, fun ha hb => ?_⟩
  · rw [insert_result_eq]
    cases db.cardInsertError (mkCardRow card) <;> simp [PersistOutcome.isOk]
  · have hres : (insertCardToSupabase db now card).result
        = PersistOutcome.ok (mkCardRow card) := by
      rw [insert_result_eq, h]
    simp [stepCard, hres]
  · cases hc : db.cardInsertError (mkCardRow card) with
    | some msg =>
      simp only [insertCardToSupabase, hc]
      cases card.expansion <;> simp [isAttacksWrite]
    | none =>
      simp only [insertCardToSupabase, hc, ha, hb]
      cases card.expansion <;>
        cases hp : firstVariantPriceRow card.id now (card.variants.getD []) <;>
          simp [isAttacksWrite, hp]

/-- Witness for C4: on a store where every write succeeds, the plain card is
a success, increments the counter and yields no attack/ability rows. -/
theorem persistSuccess_iff_cardInsert_witness :
    (insertCardToSupabase dbAllOk "t" w4Card).result.isOk
        = (dbAllOk.cardInsertError (mkCardRow w4Card)).isNone ∧
    (stepCard dbAllOk "t" initStats w4Card).successCount = initStats.successCount + 1 ∧
    (insertCardToSupabase dbAllOk "t" w4Card).writes.filter isAttacksWrite = [] :=
  ⟨(persistSuccess_iff_cardInsert dbAllOk "t" w4Card initStats).1,
   (persistSuccess_iff_cardInsert dbAllOk "t" w4Card initStats).2.1 rfl,
   (persistSuccess_iff_cardInsert dbAllOk "t" w4Card initStats).2.2 rfl rfl⟩

/-- C7 counterexample: the pricing write is attempted and the store reports
an error for it, yet the completed run counts zero errors and its only log
line is the per-card success line — the child-write failure leaves no trace
(there is no ChildWriteWarning in the code). -/
theorem childWriteFailure_silent_counterexample :
    WriteOp.priceInsert (mkPriceRow "cex7" "t" snapM5)
        ∈ (insertCardToSupabase dbPriceFails "t" cex7Card).writes ∧
    dbPriceFails.priceInsertError (mkPriceRow "cex7" "t" snapM5)
        = some "price insert failed" ∧
    (processCards dbPriceFails "t" [cex7Card] initStats).errorCount = 0 ∧
    (processCards dbPriceFails "t" [cex7Card] initStats).logs
        = [LogEvent.cardSuccess "cex7" "Priced"] := by
  decide

/-- C7 amended: fetch failures abort the run and card-insert failures are
counted and logged, but the results of the pricing and attack/ability
inserts are discarded unread: the persister's entire behaviour is
independent of the store's answers for them, so such failures are silently
ignored rather than logged. -/
theorem childWriteFailures_ignored (db₁ db₂ : DBSpec) (now : String) (card : RawCard)
    (s : RunStats) (msg : String)
    (h₁ : db₁.setUpsertError = db₂.setUpsertError)
    (h₂ : db₁.cardInsertError = db₂.cardInsertError) :
    insertCardToSupabase db₁ now card = insertCardToSupabase db₂ now card ∧
    (db₁.cardInsertError (mkCardRow card) = some msg →
      (stepCard db₁ now s card).errorCount = s.errorCount + 1 ∧
      LogEvent.cardError card.id card.name ("Card insert failed: " ++ msg)
        ∈ (stepCard db₁ now s card).logs) := by
  constructor
  · simp only [insertCardToSupabase, h₁, h₂]
  · intro h
    have hres : (insertCardToSupabase db₁ now card).result
        = PersistOutcome.error ("Card insert failed: " ++ msg) := by
      rw [insert_result_eq, h]
    exact ⟨by simp [stepCard, hres], by simp [stepCard, hres]⟩

/-- Witness for the amended C7: the persister behaves identically whether
the child writes fail or succeed, and a failing card insert is counted and
logged. -/
theorem childWriteFailures_ignored_witness :
    insertCardToSupabase dbChildAndCardFail "t" cex7Card
        = insertCardToSupabase dbOnlyCardFails "t" cex7Card ∧
    ((stepCard dbChildAndCardFail "t" initStats cex7Card).errorCount
        = initStats.errorCount + 1 ∧
      LogEvent.cardError cex7Card.id cex7Card.name ("Card insert failed: " ++ "dup")
        ∈ (stepCard dbChildAndCardFail "t" initStats cex7Card).logs) := by
  have h := childWriteFailures_ignored dbChildAndCardFail dbOnlyCardFails "t"
    cex7Card initStats "dup" rfl rfl
  exact ⟨h.1, h.2 rfl⟩

/-- Priced-card bookkeeping of the whole loop, generalized over the
starting accumulator: an iteration adds one to `pricesFound` exactly when
the card insert succeeded and some variant has a non-empty snapshot list. -/
theorem processCards_priced (db : DBSpec) (now : String) :
    ∀ (cards : List RawCard) (s : RunStats),
      (processCards db now cards s).pricesFound
        = s.pricesFound + cards.countP
            (fun c => (db.cardInsertError (mkCardRow c)).isNone && hasPricedVariant c) := by
  intro cards
  induction cards with
  | nil => intro s; simp [processCards]
  | cons c rest ih =>
    intro s
    simp only [processCards]
    rw [ih, List.countP_cons]
    have hres := insert_result_eq db now c
    cases hc : db.cardInsertError (mkCardRow c) with
    | some msg =>
      rw [hc] at hres
      simp [stepCard, hres, hc]
    | none =>
      rw [hc] at hres
      by_cases hp : hasPricedVariant c = true
      · simp [stepCard, hres, hc, hp]
        omega
      · simp [stepCard, hres, hc, hp]

/-- C6 amended: for every completed run, `pricesFound` equals the number of
successfully persisted cards that have at least one variant with a non-empty
price-snapshot list (which can exceed the number of cards that produced a
pricing row). -/
theorem pricesFound_counts_nonempty_priceLists (db : DBSpec) (now : String)
    (cards : List RawCard) :
    (processCards db now cards initStats).pricesFound
      = cards.countP
          (fun c => (db.cardInsertError (mkCardRow c)).isNone && hasPricedVariant c) := by
  have h := processCards_priced db now cards initStats
  simpa [initStats] using h

/-- C6 counterexample: on a run over one successfully persisted card whose
variant has a non-empty snapshot list but no usable value, `pricesFound`
is 1 while the card produced no pricing row (the price selection yields
nothing and no child write occurs), so the counter differs from the number
of cards that produced a PriceRecord. -/
theorem pricedCounter_counterexample :
    (processCards dbAllOk "t" [cex6Card] initStats).successCount = 1 ∧
    (processCards dbAllOk "t" [cex6Card] initStats).pricesFound = 1 ∧
    firstVariantPriceRow "cex6" "t" (cex6Card.variants.getD []) = none ∧
    (insertCardToSupabase dbAllOk "t" cex6Card).writes.filter isChildWrite = [] := by
  decide

/-- C1 counterexample: the first variant's first snapshot has a non-null
value (`low = 0`), so by the claim a PriceRecord must be emitted from it;
the code's truthiness guard treats `0` as falsy, selects nothing, and the
persister performs no pricing write. -/
theorem priceSelection_nonnull_counterexample :
    specNonNullQualifies cexSnapZero = true ∧
    firstVariantPriceRow "cex1" "t" (cex1Card.variants.getD []) = none ∧
    (insertCardToSupabase dbAllOk "t" cex1Card).writes.filter isChildWrite = [] := by
  decide

/-- C1 amended: the persister iterates the variants in source order and
inspects only the first snapshot of each; it emits exactly one pricing row,
built from the first snapshot of the first variant whose first snapshot has
at least one truthy (non-null and nonzero) value among low/mid/high/market,
and ignores all later variants; if no variant qualifies, no pricing row is
produced.  In the persister, a card whose card-row insert succeeds receives
exactly the pricing writes that this selection dictates: one when a variant
qualifies, none otherwise. -/
theorem priceSelection_first_truthy (cid now : String) :
    (∀ vs : List Variant, (∀ u ∈ vs, variantFirstSnapQualifies u = false) →
        firstVariantPriceRow cid now vs = none) ∧
    (∀ (vs₁ : List Variant) (v : Variant) (vs₂ : List Variant)
        (s : PriceSnapshot) (srest : List PriceSnapshot),
        v.prices = some (s :: srest) → truthyAnyPrice s = true →
        (∀ u ∈ vs₁, variantFirstSnapQualifies u = false) →
        firstVariantPriceRow cid now (vs₁ ++ v :: vs₂)
          = some (mkPriceRow cid now s)) ∧
    (∀ (db : DBSpec) (card : RawCard),
        db.cardInsertError (mkCardRow card) = none →
        (insertCardToSupabase db now card).writes.filter isPriceWrite
          = (firstVariantPriceRow card.id now (card.variants.getD [])).elim []
              (fun row => [WriteOp.priceInsert row])) := by
  refine ⟨?_, ?_, ?_⟩
  · intro vs
    induction vs with
    | nil => intro _; rfl
    | cons u rest ih =>
      intro h
      have hu := h u (List.mem_cons_self u rest)
      have hrest := fun x hx => h x (List.mem_cons_of_mem u hx)
      cases hp : u.prices with
      | none =>
        simp only [firstVariantPriceRow, hp]
        exact ih hrest
      | some l =>
        cases l with
        | nil =>
          simp only [firstVariantPriceRow, hp]
          exact ih hrest
        | cons s₀ t₀ =>
          have hf : truthyAnyPrice s₀ = false := by
            simpa [variantFirstSnapQualifies, hp] using hu
          simp only [firstVariantPriceRow, hp, hf, if_neg Bool.false_ne_true]
          exact ih hrest
  · intro vs₁
    induction vs₁ with
    | nil =>
      intro v vs₂ s srest hv ht _
      simp [firstVariantPriceRow, hv, ht]
    | cons u us ih =>
      intro v vs₂ s srest hv ht h
      have hu := h u (List.mem_cons_self u us)
      have hus := fun x hx => h x (List.mem_cons_of_mem u hx)
      rw [List.cons_append]
      cases hp : u.prices with
      | none =>
        simp only [firstVariantPriceRow, hp]
        exact ih v vs₂ s srest hv ht hus
      | some l =>
        cases l with
        | nil =>
          simp only [firstVariantPriceRow, hp]
          exact ih v vs₂ s srest hv ht hus
        | cons s₀ t₀ =>
          have hf : truthyAnyPrice s₀ = false := by
            simpa [variantFirstSnapQualifies, hp] using hu
          simp only [firstVariantPriceRow, hp, hf, if_neg Bool.false_ne_true]
          exact ih v vs₂ s srest hv ht hus
  · intro db card h
    simp only [insertCardToSupabase, h]
    cases card.expansion <;>
      cases hp : firstVariantPriceRow card.id now (card.variants.getD []) <;>
        simp only [hp, Option.elim, List.filter_append] <;>
          split <;> split <;> simp [isPriceWrite]

/-- Witness for the amended C1, in the shape of the spec's scenario: three
variants whose first two have no usable price values and whose third has
`market = 5`; the emitted pricing row carries `price_market = 5`; the
persister performs exactly that one pricing write for a card holding the
qualifying variant. -/
theorem priceSelection_first_truthy_witness :
    firstVariantPriceRow "c" "t" [vNullSnap, vNullSnap, vMarket5]
        = some (mkPriceRow "c" "t" snapM5) ∧
    (mkPriceRow "c" "t" snapM5).price_market = some 5 ∧
    (insertCardToSupabase dbAllOk "t" cex7Card).writes.filter isPriceWrite
        = [WriteOp.priceInsert (mkPriceRow "cex7" "t" snapM5)] := by
  refine ⟨?_, by decide, ?_⟩
  · have h := (priceSelection_first_truthy "c" "t").2.1 [vNullSnap, vNullSnap]
      vMarket5 [] snapM5 [] rfl (by decide) (by decide)
    simpa using h
  · have h3 := (priceSelection_first_truthy "c" "t").2.2 dbAllOk cex7Card rfl
    rw [h3]
    decide

/-- C2: against a catalog whose pages 1 and 2 are full (250 records) and
whose page 3 has 100 records, the fetcher returns the three pages
concatenated in request order — 600 records — after exactly 3 requests,
for any fuel bound of at least 3. -/
theorem fetch_three_pages (pages : Nat → List RawCard) (fuel : Nat)
    (h1 : (pages 1).length = 250) (h2 : (pages 2).length = 250)
    (h3 : (pages 3).length = 100) (hf : 3 ≤ fuel) :
    fetchAllScrydexCards pages fuel = some (pages 1 ++ pages 2 ++ pages 3, 3) ∧
    (pages 1 ++ pages 2 ++ pages 3).length = 600 := by
  obtain ⟨k, rfl⟩ : ∃ k, fuel = k + 3 := ⟨fuel - 3, by omega⟩
  constructor
  · show fetchPages pages (k + 3) 1 [] 0 = _
    simp only [fetchPages, h1, h2, h3]
    norm_num
  · simp [h1, h2, h3]

/-- Witness for C2 at the concrete three-page catalog with fuel 3. -/
theorem fetch_three_pages_witness :
    fetchAllScrydexCards pagesScenario 3
        = some (pagesScenario 1 ++ pagesScenario 2 ++ pagesScenario 3, 3) ∧
    (pagesScenario 1 ++ pagesScenario 2 ++ pagesScenario 3).length = 600 :=
  fetch_three_pages pagesScenario 3 (by rw [pagesScenario]; norm_num)
    (by rw [pagesScenario]; norm_num) (by rw [pagesScenario]; norm_num) (by omega)

/-- When the pagination loop yields a result, some requested page (at or
after the starting page) was shorter than 250 records. -/
theorem fetchPages_isSome_short (pages : Nat → List RawCard) :
    ∀ (fuel page : Nat) (acc : List RawCard) (reqs : Nat),
      (fetchPages pages fuel page acc reqs).isSome = true →
      ∃ n, page ≤ n ∧ (pages n).length < 250 := by
  intro fuel
  induction fuel with
  | zero =>
    intro page acc reqs h
    simp [fetchPages] at h
  | succ k ih =>
    intro page acc reqs h
    by_cases h0 : (pages page).length = 0
    · exact ⟨page, le_refl page, by omega⟩
    · by_cases hlt : (pages page).length < 250
      · exact ⟨page, le_refl page, hlt⟩
      · simp only [fetchPages, if_neg h0, if_neg hlt] at h
        obtain ⟨n, hn, hs⟩ := ih (page + 1) (acc ++ pages page) (reqs + 1) h
        exact ⟨n, by omega, hs⟩

/-- When some page at or after the starting page is shorter than 250
records, enough fuel makes the pagination loop yield a result. -/
theorem fetchPages_short_isSome (pages : Nat → List RawCard) :
    ∀ (fuel page : Nat) (acc : List RawCard) (reqs n : Nat),
      page ≤ n → n < page + fuel → (pages n).length < 250 →
      (fetchPages pages fuel page acc reqs).isSome = true := by
  intro fuel
  induction fuel with
  | zero =>
    intro page acc reqs n h1 h2 h3
    omega
  | succ k ih =>
    intro page acc reqs n h1 h2 h3
    by_cases h0 : (pages page).length = 0
    · simp [fetchPages, h0]
    · by_cases hlt : (pages page).length < 250
      · simp [fetchPages, h0, hlt]
      · simp only [fetchPages, if_neg h0, if_neg hlt]
        have hne : page + 1 ≤ n := by
          rcases Nat.lt_or_ge page n with hpn | hpn
          · omega
          · exfalso
            have : n = page := by omega
            subst this
            omega
        exact ih (page + 1) (acc ++ pages page) (reqs + 1) n hne (by omega) h3

/-- C10: the fetch loop can terminate exactly when some requested page (page
numbers start at 1) holds fewer than 250 records; against a source that
answers a full page of 250 at every index, the loop never terminates — every
fuel bound is exhausted. -/
theorem fetch_terminates_iff_short_page (pages : Nat → List RawCard) :
    ((∃ fuel, (fetchAllScrydexCards pages fuel).isSome = true) ↔
      (∃ n, 1 ≤ n ∧ (pages n).length < 250)) ∧
    ((∀ n, 1 ≤ n → (pages n).length = 250) →
      ∀ fuel, fetchAllScrydexCards pages fuel = none) := by
  constructor
  · constructor
    · rintro ⟨fuel, h⟩
      exact fetchPages_isSome_short pages fuel 1 [] 0 h
    · rintro ⟨n, h1, hlt⟩
      exact ⟨n, fetchPages_short_isSome pages n 1 [] 0 n h1 (by omega) hlt⟩
  · intro hfull fuel
    cases heq : fetchAllScrydexCards pages fuel with
    | none => rfl
    | some x =>
      exfalso
      obtain ⟨n, h1, hlt⟩ :=
        fetchPages_isSome_short pages fuel 1 [] 0 (by rw [show fetchPages pages fuel 1 [] 0 = fetchAllScrydexCards pages fuel from rfl, heq]; rfl)
      rw [hfull n h1] at hlt
      omega

/-- Witness for C10: with the all-full source no fuel bound suffices. -/
theorem fetch_terminates_iff_short_page_witness :
    fetchAllScrydexCards pagesAllFull 7 = none :=
  (fetch_terminates_iff_short_page pagesAllFull).2
    (fun n _ => by rw [pagesAllFull]; norm_num) 7

/-- Witness for C9 at a concrete card with `hp = 0`, `number = ""`,
`supertype = ""` and an attack with damage `""`. -/
theorem falsy_fields_defaulted_witness :
    (mkCardRow wFalsyCard).hp = none ∧
    (mkCardRow wFalsyCard).number = none ∧
    (mkCardRow wFalsyCard).supertype = none ∧
    (mkAttackRow "w9" wFalsyAttack).damage = "" :=
  ⟨(falsy_fields_defaulted wFalsyCard wFalsyAttack "w9").1 rfl,
   (falsy_fields_defaulted wFalsyCard wFalsyAttack "w9").2.1 rfl,
   (falsy_fields_defaulted wFalsyCard wFalsyAttack "w9").2.2.1 rfl,
   (falsy_fields_defaulted wFalsyCard wFalsyAttack "w9").2.2.2 rfl⟩
